import Mathlib

/-!
Shallow embedding of the MIPS processor-state helpers of
src/qemu/target/mips/internal.h (interrupt enabled/pending predicates,
mode-flags recomputation, VPE/VP activation gating, and the r4k TLB entry),
together with theorems settling the frozen claims about them.

Machine integers are modelled as natural numbers; every register is a
32-bit quantity and every bit test in the source masks out the bits it
reads, so no explicit truncation is needed except at the one place the
source complements a mask (modelled with a 32-bit xor).
-/

namespace Unicorn

/-! ### Register-layout constants

The header that defines these constants (the MIPS cpu.h of the emulator) is
not among the sources; the Status/Cause/Config/TCStatus bit positions below
follow the MIPS architecture layout that internal.h reads through them, and
the mode-flag (hflags) constants are the internal derived bits of the
emulator: two low bits for the privilege mode (so that the source idiom
of shifting Status right by the KSU position and masking with the KSU mask
extracts the two-bit privilege field), one bit for debug mode that the
recomputation never clears, and one distinct bit for every other derived
flag. -/

def CP0St_IE : ℕ := 0
def CP0St_EXL : ℕ := 1
def CP0St_ERL : ℕ := 2
def CP0St_KSU : ℕ := 3
def CP0St_UX : ℕ := 5
def CP0St_SX : ℕ := 6
def CP0St_KX : ℕ := 7
def CP0St_PX : ℕ := 23
def CP0St_MX : ℕ := 24
def CP0St_FR : ℕ := 26
def CP0St_CU0 : ℕ := 28
def CP0St_CU1 : ℕ := 29
def CP0St_CU3 : ℕ := 31

/-- Cause.IP / Status.IM field: the eight interrupt lines, bits 8..15. -/
def CP0Ca_IP_mask : ℕ := 0x0000FF00

def CP0C3_VEIC : ℕ := 6
def CP0C3_LPA : ℕ := 7
def CP0C5_SBRI : ℕ := 6
def CP0C5_FRE : ℕ := 8
def CP0C5_MSAEn : ℕ := 27
def CP0PG_ELPA : ℕ := 29
def CP0TCSt_IXMT : ℕ := 10
def CP0TCSt_A : ℕ := 13
def CP0MVPCo_EVP : ℕ := 0
def CP0VPEC0_VPA : ℕ := 0
def CP0VPCtl_DIS : ℕ := 0
def FCR0_F64 : ℕ := 22
def FCR0_FREP : ℕ := 29

def ISA_MIPS3 : ℕ := 0x00000004
def ISA_MIPS4 : ℕ := 0x00000008
def ISA_MIPS32 : ℕ := 0x00000020
def ISA_MIPS32R2 : ℕ := 0x00000040
def ISA_MIPS32R6 : ℕ := 0x00002000
def ISA_MIPS64R6 : ℕ := 0x00004000
def ASE_DSP : ℕ := 0x00080000
def ASE_DSPR2 : ℕ := 0x00100000
def ASE_MSA : ℕ := 0x01000000

def MIPS_HFLAG_KSU : ℕ := 0x3
def MIPS_HFLAG_UM : ℕ := 0x2
def MIPS_HFLAG_SM : ℕ := 0x1
def MIPS_HFLAG_KM : ℕ := 0x0
def MIPS_HFLAG_DM : ℕ := 0x4
def MIPS_HFLAG_64 : ℕ := 0x8
def MIPS_HFLAG_CP0 : ℕ := 0x10
def MIPS_HFLAG_FPU : ℕ := 0x20
def MIPS_HFLAG_F64 : ℕ := 0x40
def MIPS_HFLAG_AWRAP : ℕ := 0x80
def MIPS_HFLAG_COP1X : ℕ := 0x100
def MIPS_HFLAG_SBRI : ℕ := 0x200
def MIPS_HFLAG_DSP : ℕ := 0x400
def MIPS_HFLAG_DSPR2 : ℕ := 0x800
def MIPS_HFLAG_MSA : ℕ := 0x1000
def MIPS_HFLAG_FRE : ℕ := 0x2000
def MIPS_HFLAG_ELPA : ℕ := 0x4000
def MIPS_HFLAG_ERL : ℕ := 0x8000

/-! ### Data model

The fields of CPUMIPSState that internal.h reads or writes. -/

/-- r4k_tlb_t of internal.h: one software-managed TLB entry.  The C
one-bit bitfields are naturals holding 0 or 1; PFN is the pair of per-half
physical frame numbers. -/
structure r4k_tlb_t where
  VPN : ℕ
  PageMask : ℕ
  ASID : ℕ
  G : ℕ
  C0 : ℕ
  C1 : ℕ
  V0 : ℕ
  V1 : ℕ
  D0 : ℕ
  D1 : ℕ
  XI0 : ℕ
  XI1 : ℕ
  RI0 : ℕ
  RI1 : ℕ
  EHINV : ℕ
  PFN0 : ℕ
  PFN1 : ℕ

/-- The active thread context fields read by internal.h. -/
structure TCState where
  CP0_TCStatus : ℕ
  CP0_TCHalt : ℕ

/-- The active floating-point-unit control fields read by compute_hflags. -/
structure FPUState where
  fcr0 : ℕ
  fcr31 : ℕ

/-- The fields of the shared multi-VPE block read by mips_vpe_active. -/
structure MVPState where
  CP0_MVPControl : ℕ

/-- The slice of CPUMIPSState that the embedded helpers read or write. -/
structure CPUMIPSState where
  CP0_Status : ℕ
  CP0_Cause : ℕ
  CP0_Config3 : ℕ
  CP0_Config5 : ℕ
  CP0_PageGrain : ℕ
  CP0_VPEConf0 : ℕ
  CP0_VPControl : ℕ
  insn_flags : ℕ
  hflags : ℕ
  active_tc : TCState
  active_fpu : FPUState
  mvp : MVPState
  tlb : List r4k_tlb_t

/-- A CPU state with every field zero, used to build concrete test states. -/
def mkEnv : CPUMIPSState :=
  { CP0_Status := 0, CP0_Cause := 0, CP0_Config3 := 0, CP0_Config5 := 0,
    CP0_PageGrain := 0, CP0_VPEConf0 := 0, CP0_VPControl := 0,
    insn_flags := 0, hflags := 0,
    active_tc := { CP0_TCStatus := 0, CP0_TCHalt := 0 },
    active_fpu := { fcr0 := 0, fcr31 := 0 },
    mvp := { CP0_MVPControl := 0 },
    tlb := [] }

/-! ### Interrupt predicates (internal.h lines 95-129) -/

/-- cpu_mips_hw_interrupts_enabled: interrupts are enabled iff Status.IE is
set, Status.EXL and Status.ERL are clear, the debug-mode hflag is clear and
the active thread context is not interrupt-mask-exempt. -/
def cpu_mips_hw_interrupts_enabled (env : CPUMIPSState) : Bool :=
  decide (env.CP0_Status &&& (1 <<< CP0St_IE) ≠ 0) &&
  decide (env.CP0_Status &&& (1 <<< CP0St_EXL) = 0) &&
  decide (env.CP0_Status &&& (1 <<< CP0St_ERL) = 0) &&
  decide (env.hflags &&& MIPS_HFLAG_DM = 0) &&
  decide (env.active_tc.CP0_TCStatus &&& (1 <<< CP0TCSt_IXMT) = 0)

/-- cpu_mips_hw_interrupts_pending: with a vectorizing external interrupt
controller (Config3.VEIC) the masked Cause and Status IP fields are
compared as magnitudes, otherwise they are tested line by line. -/
def cpu_mips_hw_interrupts_pending (env : CPUMIPSState) : Bool :=
  let pending := env.CP0_Cause &&& CP0Ca_IP_mask
  let mask := env.CP0_Status &&& CP0Ca_IP_mask
  if env.CP0_Config3 &&& (1 <<< CP0C3_VEIC) ≠ 0 then
    decide (pending > mask)
  else
    decide (pending &&& mask ≠ 0)

/-- Claim C1: the pending predicate compares the IP-masked Cause and Status
values as magnitudes exactly when Config3.VEIC is set and tests their
bitwise AND for nonzero otherwise; pending level 5 against mask level 3 is
pending in vectored mode, and pending bits 0b0100 against mask bits 0b0110
are pending in compatibility mode. -/
theorem claim_C1 :
    (∀ env : CPUMIPSState,
      (env.CP0_Config3 &&& (1 <<< CP0C3_VEIC) ≠ 0 →
        (cpu_mips_hw_interrupts_pending env = true ↔
          env.CP0_Cause &&& CP0Ca_IP_mask > env.CP0_Status &&& CP0Ca_IP_mask)) ∧
      (env.CP0_Config3 &&& (1 <<< CP0C3_VEIC) = 0 →
        (cpu_mips_hw_interrupts_pending env = true ↔
          (env.CP0_Cause &&& CP0Ca_IP_mask) &&& (env.CP0_Status &&& CP0Ca_IP_mask) ≠ 0))) ∧
    cpu_mips_hw_interrupts_pending
      { mkEnv with CP0_Config3 := 1 <<< CP0C3_VEIC,
                   CP0_Cause := 5 <<< 8, CP0_Status := 3 <<< 8 } = true ∧
    cpu_mips_hw_interrupts_pending
      { mkEnv with CP0_Cause := 4 <<< 8, CP0_Status := 6 <<< 8 } = true := by
  refine ⟨fun env => ⟨fun hveic => ?_, fun hveic => ?_⟩, by decide, by decide⟩
  · simp [cpu_mips_hw_interrupts_pending, hveic]
  · simp [cpu_mips_hw_interrupts_pending, hveic]

/-- Claim C1 witness: the vectored branch of the theorem, applied to the
state with pending level 5 and mask level 3. -/
theorem claim_C1_witness :
    cpu_mips_hw_interrupts_pending
      { mkEnv with CP0_Config3 := 1 <<< CP0C3_VEIC,
                   CP0_Cause := 5 <<< 8, CP0_Status := 3 <<< 8 } = true :=
  ((claim_C1.1 _).1 (by decide)).2 (by decide)

/-- Claim C2: the enabled predicate is true iff Status.IE is set while
Status.EXL, Status.ERL, the debug-mode hflag and the active thread context
IXMT bit are all clear; in particular Status.ERL set forces it false. -/
theorem claim_C2 (env : CPUMIPSState) :
    (cpu_mips_hw_interrupts_enabled env = true ↔
      (env.CP0_Status &&& (1 <<< CP0St_IE) ≠ 0 ∧
       env.CP0_Status &&& (1 <<< CP0St_EXL) = 0 ∧
       env.CP0_Status &&& (1 <<< CP0St_ERL) = 0 ∧
       env.hflags &&& MIPS_HFLAG_DM = 0 ∧
       env.active_tc.CP0_TCStatus &&& (1 <<< CP0TCSt_IXMT) = 0)) ∧
    (env.CP0_Status &&& (1 <<< CP0St_ERL) ≠ 0 →
      cpu_mips_hw_interrupts_enabled env = false) := by
  constructor
  · simp [cpu_mips_hw_interrupts_enabled, and_assoc]
  · intro herl
    simp [cpu_mips_hw_interrupts_enabled, herl]

/-- Claim C2 witness: a state with both Status.IE and Status.ERL set is not
enabled, by the second half of the theorem. -/
theorem claim_C2_witness :
    cpu_mips_hw_interrupts_enabled
      { mkEnv with CP0_Status := (1 <<< CP0St_IE) ||| (1 <<< CP0St_ERL) } = false :=
  (claim_C2 _).2 (by decide)

/-- Claim C9: both interrupt predicates are deterministic functions of the
status, cause, configuration, mode-flags and active-thread-context fields
alone: two states that agree on those fields get identical results. -/
theorem claim_C9 (e1 e2 : CPUMIPSState)
    (hst : e1.CP0_Status = e2.CP0_Status)
    (hca : e1.CP0_Cause = e2.CP0_Cause)
    (hc3 : e1.CP0_Config3 = e2.CP0_Config3)
    (hhf : e1.hflags = e2.hflags)
    (htc : e1.active_tc = e2.active_tc) :
    cpu_mips_hw_interrupts_enabled e1 = cpu_mips_hw_interrupts_enabled e2 ∧
    cpu_mips_hw_interrupts_pending e1 = cpu_mips_hw_interrupts_pending e2 := by
  unfold cpu_mips_hw_interrupts_enabled cpu_mips_hw_interrupts_pending
  rw [hst, hca, hc3, hhf, htc]
  exact ⟨rfl, rfl⟩

/-- Claim C9 witness: the theorem applied to two concrete states that
differ only in a field outside the listed ones (CP0_VPControl). -/
theorem claim_C9_witness :
    cpu_mips_hw_interrupts_enabled mkEnv =
      cpu_mips_hw_interrupts_enabled { mkEnv with CP0_VPControl := 7 } ∧
    cpu_mips_hw_interrupts_pending mkEnv =
      cpu_mips_hw_interrupts_pending { mkEnv with CP0_VPControl := 7 } :=
  claim_C9 mkEnv { mkEnv with CP0_VPControl := 7 } rfl rfl rfl rfl rfl

/-! ### VPE / VP activation gating (internal.h lines 194-247) -/

/-- mips_vpe_active: starts from active = 1 and zeroes it when the
MVPControl.EVP enable bit is clear, when the VPEConf0.VPA activation bit is
clear, when the active thread context is not allocated (TCStatus.A clear),
or when the active thread context is halted (TCHalt bit 0). -/
def mips_vpe_active (env : CPUMIPSState) : ℕ :=
  let active := 1
  let active := if env.mvp.CP0_MVPControl &&& (1 <<< CP0MVPCo_EVP) = 0 then 0 else active
  let active := if env.CP0_VPEConf0 &&& (1 <<< CP0VPEC0_VPA) = 0 then 0 else active
  let active := if env.active_tc.CP0_TCStatus &&& (1 <<< CP0TCSt_A) = 0 then 0 else active
  let active := if env.active_tc.CP0_TCHalt &&& 1 ≠ 0 then 0 else active
  active

/-- mips_vp_active as compiled: if the VP has itself disabled the other
VPs it returns active, and the cross-instance scan that would follow sits
under a disabled preprocessor conditional (marked as commented out for
this deployment), so the fall-through also returns active. -/
def mips_vp_active (env : CPUMIPSState) : ℕ :=
  if (env.CP0_VPControl >>> CP0VPCtl_DIS) &&& 1 ≠ 0 then 1
  else 1

/-- Modelled from the spec: the scan-enabled behavior the specification
describes for multi-core deployments.  The source keeps this scan only as
disabled text that no build configuration compiles in; it is embedded
here, clearly separated from the compiled predicate, to compare the two.
The VP is active iff it has itself disabled the other VPs, or no other
virtual processor (the list of the remaining CPU states the scan would
visit) has disabled it. -/
def mips_vp_active_scan (env : CPUMIPSState) (others : List CPUMIPSState) : ℕ :=
  if (env.CP0_VPControl >>> CP0VPCtl_DIS) &&& 1 ≠ 0 then 1
  else if others.any (fun other =>
      decide ((other.CP0_VPControl >>> CP0VPCtl_DIS) &&& 1 ≠ 0)) then 0
  else 1

/-- Claim C6: the VPE is active iff MVPControl.EVP is set, VPEConf0.VPA is
set, the active thread context is allocated and it is not halted. -/
theorem claim_C6 (env : CPUMIPSState) :
    mips_vpe_active env ≠ 0 ↔
      (env.mvp.CP0_MVPControl &&& (1 <<< CP0MVPCo_EVP) ≠ 0 ∧
       env.CP0_VPEConf0 &&& (1 <<< CP0VPEC0_VPA) ≠ 0 ∧
       env.active_tc.CP0_TCStatus &&& (1 <<< CP0TCSt_A) ≠ 0 ∧
       env.active_tc.CP0_TCHalt &&& 1 = 0) := by
  unfold mips_vpe_active
  split_ifs with h1 h2 h3 h4 <;> simp_all

/-- Claim C7 counterexample: the program provides no scan toggle.  At a
concrete system state in which another virtual processor has set its
disable bit and this one has not, the compiled predicate still answers
active while the scan-enabled behavior the claim attributes to the
program answers inactive: the compiled predicate, a function of the one
CPU state only, is hard-coded to the always-active behavior. -/
theorem claim_C7_counterexample :
    mips_vp_active mkEnv = 1 ∧
    mips_vp_active_scan mkEnv
      [{ mkEnv with CP0_VPControl := 1 <<< CP0VPCtl_DIS }] = 0 := by
  exact ⟨rfl, by decide⟩

/-- Claim C7 (amended): the compiled VP-active predicate hard-codes the
scan-disabled behavior — the cross-instance check is compiled out and the
predicate returns active for every CPU state — while the scan-enabled
behavior, which survives only as disabled source text, is active iff the
VP has itself disabled the other VPs or no other VP has disabled it. -/
theorem claim_C7 (env : CPUMIPSState) (others : List CPUMIPSState) :
    mips_vp_active env = 1 ∧
    (mips_vp_active_scan env others ≠ 0 ↔
      ((env.CP0_VPControl >>> CP0VPCtl_DIS) &&& 1 ≠ 0 ∨
       ∀ other ∈ others, (other.CP0_VPControl >>> CP0VPCtl_DIS) &&& 1 = 0)) := by
  constructor
  · unfold mips_vp_active
    split_ifs <;> rfl
  · unfold mips_vp_active_scan
    by_cases h1 : (env.CP0_VPControl >>> CP0VPCtl_DIS) &&& 1 ≠ 0
    · rw [if_pos h1]
      exact ⟨fun _ => Or.inl h1, fun _ => one_ne_zero⟩
    · rw [if_neg h1]
      push_neg at h1
      by_cases h2 : others.any (fun other =>
          decide ((other.CP0_VPControl >>> CP0VPCtl_DIS) &&& 1 ≠ 0)) = true
      · rw [if_pos h2]
        simp only [List.any_eq_true, decide_eq_true_iff] at h2
        obtain ⟨o, ho, hbit⟩ := h2
        constructor
        · intro h
          exact absurd rfl h
        · intro h
          rcases h with h | hall
          · exact absurd h1 h
          · exact absurd (hall o ho) hbit
      · rw [if_neg h2]
        simp only [List.any_eq_true, decide_eq_true_iff] at h2
        push_neg at h2
        exact ⟨fun _ => Or.inr h2, fun _ => one_ne_zero⟩

/-! ### TLB entry matching (r4k_tlb_t, internal.h lines 30-48)

The r4k address-translation and probe code that walks the TLB entries
(r4k_map_address, r4k_helper_tlbp) is only declared in internal.h; its
body is not among the sources, so the match test is modelled from the
specification. -/

/-- Modelled from the spec: the per-entry match test of the r4k TLB lookup
(the bodies of r4k_map_address and r4k_helper_tlbp are missing from the
sources).  An invalidated entry (EHINV set) is skipped; otherwise the
entry matches when its page tag equals the lookup tag masked by the
complement of the entry page-size selector and the entry is global or its
address-space id equals the current one. -/
def tlb_entry_match (e : r4k_tlb_t) (vtag asid : ℕ) : Bool :=
  decide (e.EHINV = 0) &&
  decide (e.VPN = vtag &&& (0xFFFFFFFFFFFFFFFF ^^^ e.PageMask)) &&
  (decide (e.G ≠ 0) || decide (e.ASID = asid))

/-- Modelled from the spec: the lookup scans the entries in index order and
returns the index of the first matching, non-invalidated entry. -/
def r4k_tlb_lookup : List r4k_tlb_t → ℕ → ℕ → Option ℕ
  | [], _, _ => none
  | e :: rest, vtag, asid =>
    if tlb_entry_match e vtag asid then some 0
    else (r4k_tlb_lookup rest vtag asid).map (· + 1)

/-- Every index the lookup returns points at an entry the match test
accepts. -/
theorem r4k_tlb_lookup_match (tlbs : List r4k_tlb_t) (vtag asid i : ℕ)
    (h : r4k_tlb_lookup tlbs vtag asid = some i) :
    ∃ e, tlbs.get? i = some e ∧ tlb_entry_match e vtag asid = true := by
  induction tlbs generalizing i with
  | nil => simp [r4k_tlb_lookup] at h
  | cons e rest ih =>
    unfold r4k_tlb_lookup at h
    by_cases hm : tlb_entry_match e vtag asid = true
    · rw [if_pos hm] at h
      obtain rfl : (0 : ℕ) = i := Option.some.injEq _ _ ▸ h
      exact ⟨e, rfl, hm⟩
    · rw [if_neg hm] at h
      obtain ⟨j, hj, rfl⟩ := Option.map_eq_some'.mp h
      obtain ⟨e', he', hme'⟩ := ih j hj
      exact ⟨e', by simpa using he', hme'⟩

/-- Claim C8: an invalidated entry is rejected by the match test for every
tag and address-space id, and consequently the index returned by a TLB
lookup always points at an entry whose invalidated marker is clear. -/
theorem claim_C8 :
    (∀ (e : r4k_tlb_t) (vtag asid : ℕ), e.EHINV ≠ 0 →
      tlb_entry_match e vtag asid = false) ∧
    (∀ (tlbs : List r4k_tlb_t) (vtag asid i : ℕ),
      r4k_tlb_lookup tlbs vtag asid = some i →
      ∃ e, tlbs.get? i = some e ∧ e.EHINV = 0) := by
  constructor
  · intro e vtag asid hinv
    unfold tlb_entry_match
    simp [hinv]
  · intro tlbs vtag asid i h
    obtain ⟨e, he, hm⟩ := r4k_tlb_lookup_match tlbs vtag asid i h
    refine ⟨e, he, ?_⟩
    unfold tlb_entry_match at hm
    by_contra hinv
    simp [hinv] at hm

/-- A TLB entry that is invalidated but would otherwise match tag 0x1000
with address-space id 7. -/
def tlbInv : r4k_tlb_t :=
  { VPN := 0x1000, PageMask := 0, ASID := 7, G := 0, C0 := 0, C1 := 0,
    V0 := 1, V1 := 1, D0 := 0, D1 := 0, XI0 := 0, XI1 := 0, RI0 := 0,
    RI1 := 0, EHINV := 1, PFN0 := 0x2000, PFN1 := 0x3000 }

/-- The same entry with the invalidated marker clear. -/
def tlbOk : r4k_tlb_t := { tlbInv with EHINV := 0 }

/-- Claim C8 witness: the invalidated entry is rejected at a concrete tag
and address-space id, and the lookup over a concrete table returns the
index of an entry with the marker clear. -/
theorem claim_C8_witness :
    tlb_entry_match tlbInv 0x1000 7 = false ∧
    ∃ e, [tlbInv, tlbOk].get? 1 = some e ∧ e.EHINV = 0 :=
  ⟨claim_C8.1 tlbInv 0x1000 7 (by decide),
   claim_C8.2 [tlbInv, tlbOk] 0x1000 7 1 (by decide)⟩

/-! ### Mode-flags recomputation (compute_hflags, internal.h lines 249-349)

The TARGET_MIPS64 build of the file is modelled, so the block guarded by
TARGET_MIPS64 (the 64-bit-mode and address-wrap derivation) is included.
The C function is a sequence of statements mutating env->hflags; each
statement is one definition below, reading the value left by the previous
one, and compute_hflags itself stores the final value back into the
state. -/

/-- The derived bits cleared at the start of the recomputation. -/
def HFLAG_CMASK : ℕ :=
  MIPS_HFLAG_COP1X ||| MIPS_HFLAG_64 ||| MIPS_HFLAG_CP0 |||
  MIPS_HFLAG_F64 ||| MIPS_HFLAG_FPU ||| MIPS_HFLAG_KSU |||
  MIPS_HFLAG_AWRAP ||| MIPS_HFLAG_DSP ||| MIPS_HFLAG_DSPR2 |||
  MIPS_HFLAG_SBRI ||| MIPS_HFLAG_MSA ||| MIPS_HFLAG_FRE |||
  MIPS_HFLAG_ELPA ||| MIPS_HFLAG_ERL

/-- The 32-bit complement of HFLAG_CMASK, as the C clearing statement
computes it on the 32-bit hflags field. -/
def HFLAG_UNMASK : ℕ := 0xFFFFFFFF ^^^ HFLAG_CMASK

/-- Clearing statement: hflags &= ~(...). -/
def chf_clear (env : CPUMIPSState) : ℕ := env.hflags &&& HFLAG_UNMASK

/-- ERL statement: copy Status.ERL into the ERL hflag. -/
def chf_erl (env : CPUMIPSState) : ℕ :=
  let h := chf_clear env
  if env.CP0_Status &&& (1 <<< CP0St_ERL) ≠ 0 then h ||| MIPS_HFLAG_ERL else h

/-- KSU statement: with EXL, ERL and debug mode all clear, copy the
two-bit Status.KSU field into the privilege-mode hflag bits. -/
def chf_ksu (env : CPUMIPSState) : ℕ :=
  let h := chf_erl env
  if env.CP0_Status &&& (1 <<< CP0St_EXL) = 0 ∧
     env.CP0_Status &&& (1 <<< CP0St_ERL) = 0 ∧
     h &&& MIPS_HFLAG_DM = 0 then
    h ||| ((env.CP0_Status >>> CP0St_KSU) &&& MIPS_HFLAG_KSU)
  else h

/-- 64-bit statement (TARGET_MIPS64): the 64 hflag. -/
def chf_64 (env : CPUMIPSState) : ℕ :=
  let h := chf_ksu env
  if env.insn_flags &&& ISA_MIPS3 ≠ 0 ∧
     (h &&& MIPS_HFLAG_KSU ≠ MIPS_HFLAG_UM ∨
      env.CP0_Status &&& (1 <<< CP0St_PX) ≠ 0 ∨
      env.CP0_Status &&& (1 <<< CP0St_UX) ≠ 0) then
    h ||| MIPS_HFLAG_64
  else h

/-- Address-wrap statement (TARGET_MIPS64): the AWRAP hflag. -/
def chf_awrap (env : CPUMIPSState) : ℕ :=
  let h := chf_64 env
  if env.insn_flags &&& ISA_MIPS3 = 0 then h ||| MIPS_HFLAG_AWRAP
  else if h &&& MIPS_HFLAG_KSU = MIPS_HFLAG_UM ∧
          env.CP0_Status &&& (1 <<< CP0St_UX) = 0 then h ||| MIPS_HFLAG_AWRAP
  else if env.insn_flags &&& ISA_MIPS64R6 ≠ 0 then
    if (h &&& MIPS_HFLAG_KSU = MIPS_HFLAG_SM ∧
        env.CP0_Status &&& (1 <<< CP0St_SX) = 0) ∨
       (h &&& MIPS_HFLAG_KSU = MIPS_HFLAG_KM ∧
        env.CP0_Status &&& (1 <<< CP0St_KX) = 0) then h ||| MIPS_HFLAG_AWRAP
    else h
  else h

/-- Coprocessor-0 statement: CP0 is usable with Status.CU0 set outside
release 6, or whenever the just-computed privilege mode is kernel. -/
def chf_cp0 (env : CPUMIPSState) : ℕ :=
  let h := chf_awrap env
  if (env.CP0_Status &&& (1 <<< CP0St_CU0) ≠ 0 ∧
      env.insn_flags &&& ISA_MIPS32R6 = 0) ∨
     h &&& MIPS_HFLAG_KSU = 0 then
    h ||| MIPS_HFLAG_CP0
  else h

/-- FPU statement: Status.CU1. -/
def chf_fpu (env : CPUMIPSState) : ℕ :=
  let h := chf_cp0 env
  if env.CP0_Status &&& (1 <<< CP0St_CU1) ≠ 0 then h ||| MIPS_HFLAG_FPU else h

/-- F64 statement: Status.FR. -/
def chf_f64 (env : CPUMIPSState) : ℕ :=
  let h := chf_fpu env
  if env.CP0_Status &&& (1 <<< CP0St_FR) ≠ 0 then h ||| MIPS_HFLAG_F64 else h

/-- SBRI statement: outside kernel mode with Config5.SBRI set. -/
def chf_sbri (env : CPUMIPSState) : ℕ :=
  let h := chf_f64 env
  if h &&& MIPS_HFLAG_KSU ≠ MIPS_HFLAG_KM ∧
     env.CP0_Config5 &&& (1 <<< CP0C5_SBRI) ≠ 0 then
    h ||| MIPS_HFLAG_SBRI
  else h

/-- DSP statement: with the DSP revision-2 extension and Status.MX both
present set DSP and DSPR2, with only the revision-1 extension set DSP. -/
def chf_dsp (env : CPUMIPSState) : ℕ :=
  let h := chf_sbri env
  if env.insn_flags &&& ASE_DSPR2 ≠ 0 then
    if env.CP0_Status &&& (1 <<< CP0St_MX) ≠ 0 then
      h ||| (MIPS_HFLAG_DSP ||| MIPS_HFLAG_DSPR2)
    else h
  else if env.insn_flags &&& ASE_DSP ≠ 0 then
    if env.CP0_Status &&& (1 <<< CP0St_MX) ≠ 0 then h ||| MIPS_HFLAG_DSP else h
  else h

/-- COP1X statement: per ISA generation from fcr0.F64, the just-computed
64 hflag, or Status.CU3. -/
def chf_cop1x (env : CPUMIPSState) : ℕ :=
  let h := chf_dsp env
  if env.insn_flags &&& ISA_MIPS32R2 ≠ 0 then
    if env.active_fpu.fcr0 &&& (1 <<< FCR0_F64) ≠ 0 then h ||| MIPS_HFLAG_COP1X else h
  else if env.insn_flags &&& ISA_MIPS32 ≠ 0 then
    if h &&& MIPS_HFLAG_64 ≠ 0 then h ||| MIPS_HFLAG_COP1X else h
  else if env.insn_flags &&& ISA_MIPS4 ≠ 0 then
    if env.CP0_Status &&& (1 <<< CP0St_CU3) ≠ 0 then h ||| MIPS_HFLAG_COP1X else h
  else h

/-- MSA statement: with the MSA extension and Config5.MSAEn. -/
def chf_msa (env : CPUMIPSState) : ℕ :=
  let h := chf_cop1x env
  if env.insn_flags &&& ASE_MSA ≠ 0 then
    if env.CP0_Config5 &&& (1 <<< CP0C5_MSAEn) ≠ 0 then h ||| MIPS_HFLAG_MSA else h
  else h

/-- FRE statement: with fcr0.FREP and Config5.FRE. -/
def chf_fre (env : CPUMIPSState) : ℕ :=
  let h := chf_msa env
  if env.active_fpu.fcr0 &&& (1 <<< FCR0_FREP) ≠ 0 then
    if env.CP0_Config5 &&& (1 <<< CP0C5_FRE) ≠ 0 then h ||| MIPS_HFLAG_FRE else h
  else h

/-- ELPA statement: with Config3.LPA and PageGrain.ELPA. -/
def chf_elpa (env : CPUMIPSState) : ℕ :=
  let h := chf_fre env
  if env.CP0_Config3 &&& (1 <<< CP0C3_LPA) ≠ 0 then
    if env.CP0_PageGrain &&& (1 <<< CP0PG_ELPA) ≠ 0 then h ||| MIPS_HFLAG_ELPA else h
  else h

/-- compute_hflags: the recomputation stores the final value of the
statement sequence back into the hflags cache field. -/
def compute_hflags (env : CPUMIPSState) : CPUMIPSState :=
  { env with hflags := chf_elpa env }

theorem compute_hflags_hflags (env : CPUMIPSState) :
    (compute_hflags env).hflags = chf_elpa env := rfl

/-- Claim C5: compute_hflags writes only the hflags cache field; every
other field of the CPU state is unchanged. -/
theorem claim_C5 (env : CPUMIPSState) :
    (compute_hflags env).CP0_Status = env.CP0_Status ∧
    (compute_hflags env).CP0_Cause = env.CP0_Cause ∧
    (compute_hflags env).CP0_Config3 = env.CP0_Config3 ∧
    (compute_hflags env).CP0_Config5 = env.CP0_Config5 ∧
    (compute_hflags env).CP0_PageGrain = env.CP0_PageGrain ∧
    (compute_hflags env).CP0_VPEConf0 = env.CP0_VPEConf0 ∧
    (compute_hflags env).CP0_VPControl = env.CP0_VPControl ∧
    (compute_hflags env).insn_flags = env.insn_flags ∧
    (compute_hflags env).active_tc = env.active_tc ∧
    (compute_hflags env).active_fpu = env.active_fpu ∧
    (compute_hflags env).mvp = env.mvp ∧
    (compute_hflags env).tlb = env.tlb :=
  ⟨rfl, rfl, rfl, rfl, rfl, rfl, rfl, rfl, rfl, rfl, rfl, rfl⟩

/-! ### Bit-level reading lemmas for the statement sequence -/

theorem nat_lor_and (x y z : ℕ) : (x ||| y) &&& z = (x &&& z) ||| (y &&& z) := by
  apply Nat.eq_of_testBit_eq
  intro i
  simp [Nat.testBit_and, Nat.testBit_or, Bool.and_or_distrib_right]

theorem chf_clear_and (env : CPUMIPSState) (m : ℕ) :
    chf_clear env &&& m = env.hflags &&& (HFLAG_UNMASK &&& m) :=
  Nat.and_assoc _ _ _

theorem chf_erl_and (env : CPUMIPSState) {m : ℕ} (h : MIPS_HFLAG_ERL &&& m = 0) :
    chf_erl env &&& m = chf_clear env &&& m := by
  simp only [chf_erl]
  split_ifs
  · rw [nat_lor_and, h, Nat.or_zero]
  · rfl

theorem chf_ksu_and (env : CPUMIPSState) {m : ℕ} (h3 : MIPS_HFLAG_KSU &&& m = 0) :
    chf_ksu env &&& m = chf_erl env &&& m := by
  simp only [chf_ksu]
  split_ifs
  · rw [nat_lor_and, Nat.and_assoc, h3, Nat.and_zero, Nat.or_zero]
  · rfl

theorem chf_64_and (env : CPUMIPSState) {m : ℕ} (h : MIPS_HFLAG_64 &&& m = 0) :
    chf_64 env &&& m = chf_ksu env &&& m := by
  simp only [chf_64]
  split_ifs
  · rw [nat_lor_and, h, Nat.or_zero]
  · rfl

theorem chf_awrap_and (env : CPUMIPSState) {m : ℕ} (h : MIPS_HFLAG_AWRAP &&& m = 0) :
    chf_awrap env &&& m = chf_64 env &&& m := by
  simp only [chf_awrap]
  split_ifs <;> first | rfl | rw [nat_lor_and, h, Nat.or_zero]

theorem chf_cp0_and (env : CPUMIPSState) {m : ℕ} (h : MIPS_HFLAG_CP0 &&& m = 0) :
    chf_cp0 env &&& m = chf_awrap env &&& m := by
  simp only [chf_cp0]
  split_ifs
  · rw [nat_lor_and, h, Nat.or_zero]
  · rfl

theorem chf_fpu_and (env : CPUMIPSState) {m : ℕ} (h : MIPS_HFLAG_FPU &&& m = 0) :
    chf_fpu env &&& m = chf_cp0 env &&& m := by
  simp only [chf_fpu]
  split_ifs
  · rw [nat_lor_and, h, Nat.or_zero]
  · rfl

theorem chf_f64_and (env : CPUMIPSState) {m : ℕ} (h : MIPS_HFLAG_F64 &&& m = 0) :
    chf_f64 env &&& m = chf_fpu env &&& m := by
  simp only [chf_f64]
  split_ifs
  · rw [nat_lor_and, h, Nat.or_zero]
  · rfl

theorem chf_sbri_and (env : CPUMIPSState) {m : ℕ} (h : MIPS_HFLAG_SBRI &&& m = 0) :
    chf_sbri env &&& m = chf_f64 env &&& m := by
  simp only [chf_sbri]
  split_ifs
  · rw [nat_lor_and, h, Nat.or_zero]
  · rfl

theorem chf_dsp_and (env : CPUMIPSState) {m : ℕ}
    (h1 : (MIPS_HFLAG_DSP ||| MIPS_HFLAG_DSPR2) &&& m = 0)
    (h2 : MIPS_HFLAG_DSP &&& m = 0) :
    chf_dsp env &&& m = chf_sbri env &&& m := by
  simp only [chf_dsp]
  split_ifs <;>
    first
      | rfl
      | rw [nat_lor_and, h1, Nat.or_zero]
      | rw [nat_lor_and, h2, Nat.or_zero]

theorem chf_cop1x_and (env : CPUMIPSState) {m : ℕ} (h : MIPS_HFLAG_COP1X &&& m = 0) :
    chf_cop1x env &&& m = chf_dsp env &&& m := by
  simp only [chf_cop1x]
  split_ifs <;> first | rfl | rw [nat_lor_and, h, Nat.or_zero]

theorem chf_msa_and (env : CPUMIPSState) {m : ℕ} (h : MIPS_HFLAG_MSA &&& m = 0) :
    chf_msa env &&& m = chf_cop1x env &&& m := by
  simp only [chf_msa]
  split_ifs <;> first | rfl | rw [nat_lor_and, h, Nat.or_zero]

theorem chf_fre_and (env : CPUMIPSState) {m : ℕ} (h : MIPS_HFLAG_FRE &&& m = 0) :
    chf_fre env &&& m = chf_msa env &&& m := by
  simp only [chf_fre]
  split_ifs <;> first | rfl | rw [nat_lor_and, h, Nat.or_zero]

theorem chf_elpa_and (env : CPUMIPSState) {m : ℕ} (h : MIPS_HFLAG_ELPA &&& m = 0) :
    chf_elpa env &&& m = chf_fre env &&& m := by
  simp only [chf_elpa]
  split_ifs <;> first | rfl | rw [nat_lor_and, h, Nat.or_zero]

/-- The privilege-mode value the KSU statement computes: the Status.KSU
field when EXL, ERL and debug mode are all clear, zero otherwise. -/
def hflags_ksu (env : CPUMIPSState) : ℕ :=
  if env.CP0_Status &&& (1 <<< CP0St_EXL) = 0 ∧
     env.CP0_Status &&& (1 <<< CP0St_ERL) = 0 ∧
     env.hflags &&& MIPS_HFLAG_DM = 0 then
    (env.CP0_Status >>> CP0St_KSU) &&& MIPS_HFLAG_KSU
  else 0

/-- The debug-mode bit is outside the cleared mask, so the value the KSU
statement reads is the debug-mode bit of the incoming hflags. -/
theorem chf_erl_dm (env : CPUMIPSState) :
    chf_erl env &&& MIPS_HFLAG_DM = env.hflags &&& MIPS_HFLAG_DM := by
  rw [chf_erl_and env (by decide), chf_clear_and]
  have h : HFLAG_UNMASK &&& MIPS_HFLAG_DM = MIPS_HFLAG_DM := by decide
  rw [h]

theorem chf_erl_ksu (env : CPUMIPSState) : chf_erl env &&& MIPS_HFLAG_KSU = 0 := by
  rw [chf_erl_and env (by decide), chf_clear_and]
  have h : HFLAG_UNMASK &&& MIPS_HFLAG_KSU = 0 := by decide
  rw [h, Nat.and_zero]

/-- The privilege-mode bits right after the KSU statement. -/
theorem chf_ksu_ksu (env : CPUMIPSState) :
    chf_ksu env &&& MIPS_HFLAG_KSU = hflags_ksu env := by
  simp only [chf_ksu, hflags_ksu, chf_erl_dm]
  split_ifs
  · rw [nat_lor_and, chf_erl_ksu, Nat.zero_or, Nat.and_assoc]
    have h : MIPS_HFLAG_KSU &&& MIPS_HFLAG_KSU = MIPS_HFLAG_KSU := by decide
    rw [h]
  · exact chf_erl_ksu env

/-- The privilege-mode bits survive unchanged through the rest of the
statement sequence. -/
theorem chf_final_ksu (env : CPUMIPSState) :
    chf_elpa env &&& MIPS_HFLAG_KSU = hflags_ksu env := by
  rw [chf_elpa_and env (by decide), chf_fre_and env (by decide),
      chf_msa_and env (by decide), chf_cop1x_and env (by decide),
      chf_dsp_and env (by decide) (by decide), chf_sbri_and env (by decide),
      chf_f64_and env (by decide), chf_fpu_and env (by decide),
      chf_cp0_and env (by decide), chf_awrap_and env (by decide),
      chf_64_and env (by decide), chf_ksu_ksu]

theorem chf_awrap_ksu (env : CPUMIPSState) :
    chf_awrap env &&& MIPS_HFLAG_KSU = hflags_ksu env := by
  rw [chf_awrap_and env (by decide), chf_64_and env (by decide), chf_ksu_ksu]

theorem chf_awrap_cp0 (env : CPUMIPSState) :
    chf_awrap env &&& MIPS_HFLAG_CP0 = 0 := by
  rw [chf_awrap_and env (by decide), chf_64_and env (by decide),
      chf_ksu_and env (by decide), chf_erl_and env (by decide), chf_clear_and]
  have h : HFLAG_UNMASK &&& MIPS_HFLAG_CP0 = 0 := by decide
  rw [h, Nat.and_zero]

/-- The coprocessor-0 bit of the final value, as a function of the
just-computed privilege mode. -/
theorem chf_final_cp0 (env : CPUMIPSState) :
    chf_elpa env &&& MIPS_HFLAG_CP0 =
      (if (env.CP0_Status &&& (1 <<< CP0St_CU0) ≠ 0 ∧
           env.insn_flags &&& ISA_MIPS32R6 = 0) ∨
          hflags_ksu env = 0 then MIPS_HFLAG_CP0 else 0) := by
  rw [chf_elpa_and env (by decide), chf_fre_and env (by decide),
      chf_msa_and env (by decide), chf_cop1x_and env (by decide),
      chf_dsp_and env (by decide) (by decide), chf_sbri_and env (by decide),
      chf_f64_and env (by decide), chf_fpu_and env (by decide)]
  simp only [chf_cp0, chf_awrap_ksu]
  split_ifs
  · rw [nat_lor_and, chf_awrap_cp0, Nat.zero_or]
    have h : MIPS_HFLAG_CP0 &&& MIPS_HFLAG_CP0 = MIPS_HFLAG_CP0 := by decide
    rw [h]
  · exact chf_awrap_cp0 env

theorem chf_ksu_bit64 (env : CPUMIPSState) :
    chf_ksu env &&& MIPS_HFLAG_64 = 0 := by
  rw [chf_ksu_and env (by decide), chf_erl_and env (by decide), chf_clear_and]
  have h : HFLAG_UNMASK &&& MIPS_HFLAG_64 = 0 := by decide
  rw [h, Nat.and_zero]

/-- The 64-bit flag of the final value, as a function of the just-computed
privilege mode. -/
theorem chf_final_64 (env : CPUMIPSState) :
    chf_elpa env &&& MIPS_HFLAG_64 =
      (if env.insn_flags &&& ISA_MIPS3 ≠ 0 ∧
          (hflags_ksu env ≠ MIPS_HFLAG_UM ∨
           env.CP0_Status &&& (1 <<< CP0St_PX) ≠ 0 ∨
           env.CP0_Status &&& (1 <<< CP0St_UX) ≠ 0) then MIPS_HFLAG_64
       else 0) := by
  rw [chf_elpa_and env (by decide), chf_fre_and env (by decide),
      chf_msa_and env (by decide), chf_cop1x_and env (by decide),
      chf_dsp_and env (by decide) (by decide), chf_sbri_and env (by decide),
      chf_f64_and env (by decide), chf_fpu_and env (by decide),
      chf_cp0_and env (by decide), chf_awrap_and env (by decide)]
  simp only [chf_64, chf_ksu_ksu]
  split_ifs
  · rw [nat_lor_and, chf_ksu_bit64, Nat.zero_or]
    decide
  · exact chf_ksu_bit64 env

theorem chf_64_ksu (env : CPUMIPSState) :
    chf_64 env &&& MIPS_HFLAG_KSU = hflags_ksu env := by
  rw [chf_64_and env (by decide), chf_ksu_ksu]

theorem chf_64_awrap0 (env : CPUMIPSState) :
    chf_64 env &&& MIPS_HFLAG_AWRAP = 0 := by
  rw [chf_64_and env (by decide), chf_ksu_and env (by decide),
      chf_erl_and env (by decide), chf_clear_and]
  have h : HFLAG_UNMASK &&& MIPS_HFLAG_AWRAP = 0 := by decide
  rw [h, Nat.and_zero]

/-- The address-wrap flag of the final value, as a function of the
just-computed privilege mode. -/
theorem chf_final_awrap (env : CPUMIPSState) :
    chf_elpa env &&& MIPS_HFLAG_AWRAP =
      (if env.insn_flags &&& ISA_MIPS3 = 0 then MIPS_HFLAG_AWRAP
       else if hflags_ksu env = MIPS_HFLAG_UM ∧
               env.CP0_Status &&& (1 <<< CP0St_UX) = 0 then MIPS_HFLAG_AWRAP
       else if env.insn_flags &&& ISA_MIPS64R6 ≠ 0 then
         if (hflags_ksu env = MIPS_HFLAG_SM ∧
             env.CP0_Status &&& (1 <<< CP0St_SX) = 0) ∨
            (hflags_ksu env = MIPS_HFLAG_KM ∧
             env.CP0_Status &&& (1 <<< CP0St_KX) = 0) then MIPS_HFLAG_AWRAP
         else 0
       else 0) := by
  rw [chf_elpa_and env (by decide), chf_fre_and env (by decide),
      chf_msa_and env (by decide), chf_cop1x_and env (by decide),
      chf_dsp_and env (by decide) (by decide), chf_sbri_and env (by decide),
      chf_f64_and env (by decide), chf_fpu_and env (by decide),
      chf_cp0_and env (by decide)]
  simp only [chf_awrap, chf_64_ksu]
  split_ifs <;>
    first
      | exact chf_64_awrap0 env
      | (rw [nat_lor_and, chf_64_awrap0, Nat.zero_or]; decide)

theorem chf_f64_ksu (env : CPUMIPSState) :
    chf_f64 env &&& MIPS_HFLAG_KSU = hflags_ksu env := by
  rw [chf_f64_and env (by decide), chf_fpu_and env (by decide),
      chf_cp0_and env (by decide), chf_awrap_ksu]

theorem chf_f64_sbri0 (env : CPUMIPSState) :
    chf_f64 env &&& MIPS_HFLAG_SBRI = 0 := by
  rw [chf_f64_and env (by decide), chf_fpu_and env (by decide),
      chf_cp0_and env (by decide), chf_awrap_and env (by decide),
      chf_64_and env (by decide), chf_ksu_and env (by decide),
      chf_erl_and env (by decide), chf_clear_and]
  have h : HFLAG_UNMASK &&& MIPS_HFLAG_SBRI = 0 := by decide
  rw [h, Nat.and_zero]

/-- The SBRI flag of the final value, as a function of the just-computed
privilege mode. -/
theorem chf_final_sbri (env : CPUMIPSState) :
    chf_elpa env &&& MIPS_HFLAG_SBRI =
      (if hflags_ksu env ≠ MIPS_HFLAG_KM ∧
          env.CP0_Config5 &&& (1 <<< CP0C5_SBRI) ≠ 0 then MIPS_HFLAG_SBRI
       else 0) := by
  rw [chf_elpa_and env (by decide), chf_fre_and env (by decide),
      chf_msa_and env (by decide), chf_cop1x_and env (by decide),
      chf_dsp_and env (by decide) (by decide)]
  simp only [chf_sbri, chf_f64_ksu]
  split_ifs
  · rw [nat_lor_and, chf_f64_sbri0, Nat.zero_or]
    decide
  · exact chf_f64_sbri0 env

/-- Claim C3: the privilege-mode bits of the recomputed hflags are the
Status.KSU field exactly when EXL, ERL and debug mode are all clear and
zero otherwise, and every later derived bit of the same pass that depends
on the privilege mode — the 64-bit flag, the address-wrap flag, the
coprocessor-0 flag and the SBRI flag — is determined by the just-computed
privilege-mode value together with its own status/config/capability
bits. -/
theorem claim_C3 (env : CPUMIPSState) :
    (compute_hflags env).hflags &&& MIPS_HFLAG_KSU =
      (if env.CP0_Status &&& (1 <<< CP0St_EXL) = 0 ∧
          env.CP0_Status &&& (1 <<< CP0St_ERL) = 0 ∧
          env.hflags &&& MIPS_HFLAG_DM = 0 then
        (env.CP0_Status >>> CP0St_KSU) &&& MIPS_HFLAG_KSU
      else 0) ∧
    ((compute_hflags env).hflags &&& MIPS_HFLAG_64 ≠ 0 ↔
      (env.insn_flags &&& ISA_MIPS3 ≠ 0 ∧
       ((compute_hflags env).hflags &&& MIPS_HFLAG_KSU ≠ MIPS_HFLAG_UM ∨
        env.CP0_Status &&& (1 <<< CP0St_PX) ≠ 0 ∨
        env.CP0_Status &&& (1 <<< CP0St_UX) ≠ 0))) ∧
    ((compute_hflags env).hflags &&& MIPS_HFLAG_AWRAP ≠ 0 ↔
      (env.insn_flags &&& ISA_MIPS3 = 0 ∨
       ((compute_hflags env).hflags &&& MIPS_HFLAG_KSU = MIPS_HFLAG_UM ∧
        env.CP0_Status &&& (1 <<< CP0St_UX) = 0) ∨
       (env.insn_flags &&& ISA_MIPS64R6 ≠ 0 ∧
        (((compute_hflags env).hflags &&& MIPS_HFLAG_KSU = MIPS_HFLAG_SM ∧
          env.CP0_Status &&& (1 <<< CP0St_SX) = 0) ∨
         ((compute_hflags env).hflags &&& MIPS_HFLAG_KSU = MIPS_HFLAG_KM ∧
          env.CP0_Status &&& (1 <<< CP0St_KX) = 0))))) ∧
    ((compute_hflags env).hflags &&& MIPS_HFLAG_CP0 ≠ 0 ↔
      ((env.CP0_Status &&& (1 <<< CP0St_CU0) ≠ 0 ∧
        env.insn_flags &&& ISA_MIPS32R6 = 0) ∨
       (compute_hflags env).hflags &&& MIPS_HFLAG_KSU = 0)) ∧
    ((compute_hflags env).hflags &&& MIPS_HFLAG_SBRI ≠ 0 ↔
      ((compute_hflags env).hflags &&& MIPS_HFLAG_KSU ≠ MIPS_HFLAG_KM ∧
       env.CP0_Config5 &&& (1 <<< CP0C5_SBRI) ≠ 0)) := by
  rw [compute_hflags_hflags, chf_final_ksu, chf_final_64, chf_final_awrap,
      chf_final_cp0, chf_final_sbri]
  refine ⟨rfl, ?_, ?_, ?_, ?_⟩ <;>
    (split_ifs <;>
      first
        | exact iff_of_true (by decide) (by tauto)
        | exact iff_of_false (fun h => h rfl) (by tauto))

/-- Claim C10: with EXL, ERL or the debug-mode hflag set, the recomputed
privilege-mode bits are zero and therefore the coprocessor-0 bit is set:
the processor is treated as having kernel privileges. -/
theorem claim_C10 (env : CPUMIPSState)
    (h : env.CP0_Status &&& (1 <<< CP0St_EXL) ≠ 0 ∨
         env.CP0_Status &&& (1 <<< CP0St_ERL) ≠ 0 ∨
         env.hflags &&& MIPS_HFLAG_DM ≠ 0) :
    (compute_hflags env).hflags &&& MIPS_HFLAG_KSU = 0 ∧
    (compute_hflags env).hflags &&& MIPS_HFLAG_CP0 ≠ 0 := by
  have hguard : ¬(env.CP0_Status &&& (1 <<< CP0St_EXL) = 0 ∧
      env.CP0_Status &&& (1 <<< CP0St_ERL) = 0 ∧
      env.hflags &&& MIPS_HFLAG_DM = 0) := by tauto
  have hksu0 : hflags_ksu env = 0 := by
    unfold hflags_ksu
    rw [if_neg hguard]
  rw [compute_hflags_hflags]
  constructor
  · rw [chf_final_ksu, hksu0]
  · rw [chf_final_cp0, if_pos (Or.inr hksu0)]
    decide

/-- Claim C10 witness: the theorem applied to a state with Status.EXL set
and everything else zero. -/
theorem claim_C10_witness :
    (compute_hflags { mkEnv with CP0_Status := 1 <<< CP0St_EXL }).hflags &&&
        MIPS_HFLAG_KSU = 0 ∧
    (compute_hflags { mkEnv with CP0_Status := 1 <<< CP0St_EXL }).hflags &&&
        MIPS_HFLAG_CP0 ≠ 0 :=
  claim_C10 { mkEnv with CP0_Status := 1 <<< CP0St_EXL } (Or.inl (by decide))

/-! ### Idempotence of the recomputation -/

theorem upd_hflags_Status (env : CPUMIPSState) (x : ℕ) :
    ({ env with hflags := x } : CPUMIPSState).CP0_Status = env.CP0_Status := rfl

theorem upd_hflags_Config3 (env : CPUMIPSState) (x : ℕ) :
    ({ env with hflags := x } : CPUMIPSState).CP0_Config3 = env.CP0_Config3 := rfl

theorem upd_hflags_Config5 (env : CPUMIPSState) (x : ℕ) :
    ({ env with hflags := x } : CPUMIPSState).CP0_Config5 = env.CP0_Config5 := rfl

theorem upd_hflags_PageGrain (env : CPUMIPSState) (x : ℕ) :
    ({ env with hflags := x } : CPUMIPSState).CP0_PageGrain = env.CP0_PageGrain := rfl

theorem upd_hflags_insn (env : CPUMIPSState) (x : ℕ) :
    ({ env with hflags := x } : CPUMIPSState).insn_flags = env.insn_flags := rfl

theorem upd_hflags_fpu (env : CPUMIPSState) (x : ℕ) :
    ({ env with hflags := x } : CPUMIPSState).active_fpu = env.active_fpu := rfl

theorem upd_hflags_hflags (env : CPUMIPSState) (x : ℕ) :
    ({ env with hflags := x } : CPUMIPSState).hflags = x := rfl

/-- Every bit outside the cleared mask survives the whole statement
sequence unchanged. -/
theorem chf_final_unmask (env : CPUMIPSState) :
    chf_elpa env &&& HFLAG_UNMASK = env.hflags &&& HFLAG_UNMASK := by
  rw [chf_elpa_and env (by decide), chf_fre_and env (by decide),
      chf_msa_and env (by decide), chf_cop1x_and env (by decide),
      chf_dsp_and env (by decide) (by decide), chf_sbri_and env (by decide),
      chf_f64_and env (by decide), chf_fpu_and env (by decide),
      chf_cp0_and env (by decide), chf_awrap_and env (by decide),
      chf_64_and env (by decide), chf_ksu_and env (by decide),
      chf_erl_and env (by decide), chf_clear_and, Nat.and_self]

/-- Replacing the incoming hflags by any value with the same bits outside
the cleared mask does not change the outcome of the statement sequence. -/
theorem chf_elpa_congr (env : CPUMIPSState) (x : ℕ)
    (hx : x &&& HFLAG_UNMASK = env.hflags &&& HFLAG_UNMASK) :
    chf_elpa { env with hflags := x } = chf_elpa env := by
  simp only [chf_elpa, chf_fre, chf_msa, chf_cop1x, chf_dsp, chf_sbri, chf_f64,
    chf_fpu, chf_cp0, chf_awrap, chf_64, chf_ksu, chf_erl, chf_clear,
    upd_hflags_Status, upd_hflags_Config3, upd_hflags_Config5,
    upd_hflags_PageGrain, upd_hflags_insn, upd_hflags_fpu, upd_hflags_hflags,
    hx]

/-- Claim C4: the mode-flags recomputation is idempotent; a second call
with unchanged registers reproduces the state of the first call exactly,
in particular a bit-identical hflags cache value. -/
theorem claim_C4 (env : CPUMIPSState) :
    compute_hflags (compute_hflags env) = compute_hflags env := by
  simp only [compute_hflags]
  rw [chf_elpa_congr env (chf_elpa env) (chf_final_unmask env)]

end Unicorn
